import Mathlib

/-!
# Verification of the DInput interception-and-injection subsystem

Shallow embedding of the shared-memory input-injection tool of this
repository: the IPC channel layout (`dinput-ipc.h`), the two hooked
sampled-state queries and the hooked buffered-event query of the proxy DLL
(`dinput-hook.c`), and the controller command-line tool (`inputctl.c`).

Machine `LONG` fields are modelled as `Int` (no arithmetic in the code can
overflow 32 bits: the only arithmetic is `frameCount++` which the state
machine keeps below 3, and constant assignments). Each hooked call is
modelled as a pure step function taking the channel state and the data the
real implementation placed in the caller buffer, returning the new channel
state, the data left in the buffer, and the HRESULT.
-/

/-! ## Constants from dinput-ipc.h -/

def CMD_NONE : Int := 0
def CMD_CLICK : Int := 1
def CMD_MOVE : Int := 2
def CMD_KEYPRESS : Int := 3

def PHASE_IDLE : Int := 0
def PHASE_RESET : Int := 1
def PHASE_MOVETO : Int := 2
def PHASE_SETTLE : Int := 3
def PHASE_BTN_DOWN : Int := 4
def PHASE_BTN_HOLD : Int := 5
def PHASE_BTN_UP : Int := 6

def PHASE_MOVE_RESET : Int := 10
def PHASE_MOVE_TO : Int := 11
def PHASE_MOVE_SETTLE : Int := 12

def PHASE_KEY_DOWN : Int := 20
def PHASE_KEY_HOLD1 : Int := 21
def PHASE_KEY_HOLD2 : Int := 22
def PHASE_KEY_UP : Int := 23

/-- HRESULT success code returned by the hooks when they injected data. -/
def DI_OK : Int := 0

/-- `InputSharedState` from dinput-ipc.h: the shared-memory command channel. -/
structure InputSharedState where
  ready : Int
  cmdType : Int
  targetX : Int
  targetY : Int
  keyCode : Int
  phase : Int
  done : Int
  frameCount : Int
  cursorX : Int
  cursorY : Int
deriving Repr, DecidableEq

/-- Channel state right after `setupSharedMemory`: `ZeroMemory` then `ready = 1`. -/
def initShm : InputSharedState :=
  { ready := 1, cmdType := 0, targetX := 0, targetY := 0, keyCode := 0,
    phase := 0, done := 0, frameCount := 0, cursorX := 0, cursorY := 0 }

/-- `DIMOUSESTATE`: relative deltas on three axes plus four button bytes.
Its size is 16 bytes (three LONGs and rgbButtons[4]). -/
structure DIMOUSESTATE where
  lX : Int
  lY : Int
  lZ : Int
  b0 : Nat
  b1 : Nat
  b2 : Nat
  b3 : Nat
deriving Repr, DecidableEq

def zeroMouse : DIMOUSESTATE :=
  { lX := 0, lY := 0, lZ := 0, b0 := 0, b1 := 0, b2 := 0, b3 := 0 }

/-- `sizeof(DIMOUSESTATE)` used by the `cbData` guard of the mouse hook. -/
def sizeofDIMOUSESTATE : Nat := 16

/-- The phase the mouse hook switch dispatches on: lines 121-134 of
dinput-hook.c read the phase and, when it is `PHASE_IDLE`, first promote it
to the first phase of the active command kind. -/
def mouseDispatch (s : InputSharedState) : Int :=
  if s.phase = PHASE_IDLE then
    (if s.cmdType = CMD_CLICK then PHASE_RESET else PHASE_MOVE_RESET)
  else s.phase

/-- `hookedMouseGetDeviceState` (dinput-hook.c lines 104-249), given a
non-null channel pointer. Arguments: channel state, `cbData`, the
`DIMOUSESTATE` the real implementation wrote into the caller buffer, and the
real HRESULT. Returns the new channel state, the buffer contents on return,
and the returned HRESULT. -/
def mouseHookStep (s : InputSharedState) (cbData : Nat) (real : DIMOUSESTATE)
    (hr : Int) : InputSharedState × DIMOUSESTATE × Int :=
  if s.cmdType = CMD_NONE ∨ s.done ≠ 0 then (s, real, hr)
  else if s.cmdType ≠ CMD_CLICK ∧ s.cmdType ≠ CMD_MOVE then (s, real, hr)
  else if cbData < sizeofDIMOUSESTATE then (s, real, hr)
  else
    let s1 : InputSharedState :=
      if s.phase = PHASE_IDLE then
        { s with phase := mouseDispatch s, frameCount := 0 }
      else s
    let ph := s1.phase
    if ph = PHASE_RESET then
      ({ s1 with cursorX := 0, cursorY := 0, phase := PHASE_MOVETO, frameCount := 0 },
       { real with lX := -10000, lY := -10000, lZ := 0, b0 := 0, b1 := 0 }, DI_OK)
    else if ph = PHASE_MOVETO then
      ({ s1 with cursorX := s1.targetX, cursorY := s1.targetY,
                 phase := PHASE_SETTLE, frameCount := 0 },
       { real with lX := s1.targetX, lY := s1.targetY, lZ := 0, b0 := 0, b1 := 0 }, DI_OK)
    else if ph = PHASE_SETTLE then
      ({ s1 with phase := PHASE_BTN_DOWN, frameCount := 0 },
       { real with lX := 0, lY := 0, lZ := 0, b0 := 0, b1 := 0 }, DI_OK)
    else if ph = PHASE_BTN_DOWN then
      ({ s1 with phase := PHASE_BTN_HOLD, frameCount := 0 },
       { real with lX := 0, lY := 0, lZ := 0, b0 := 0x80, b1 := 0 }, DI_OK)
    else if ph = PHASE_BTN_HOLD then
      (if s1.frameCount + 1 ≥ 2 then
         { s1 with phase := PHASE_BTN_UP, frameCount := 0 }
       else { s1 with frameCount := s1.frameCount + 1 },
       { real with lX := 0, lY := 0, lZ := 0, b0 := 0x80, b1 := 0 }, DI_OK)
    else if ph = PHASE_BTN_UP then
      ({ s1 with phase := PHASE_IDLE, cmdType := CMD_NONE, done := 1, frameCount := 0 },
       { real with lX := 0, lY := 0, lZ := 0, b0 := 0, b1 := 0 }, DI_OK)
    else if ph = PHASE_MOVE_RESET then
      ({ s1 with phase := PHASE_MOVE_TO, frameCount := 0 },
       { real with lX := -10000, lY := -10000, lZ := 0, b0 := 0, b1 := 0 }, DI_OK)
    else if ph = PHASE_MOVE_TO then
      ({ s1 with phase := PHASE_MOVE_SETTLE, frameCount := 0 },
       { real with lX := s1.targetX, lY := s1.targetY, lZ := 0, b0 := 0, b1 := 0 }, DI_OK)
    else if ph = PHASE_MOVE_SETTLE then
      ({ s1 with phase := PHASE_IDLE, cmdType := CMD_NONE, done := 1, frameCount := 0 },
       { real with lX := 0, lY := 0, lZ := 0, b0 := 0, b1 := 0 }, DI_OK)
    else (s1, real, hr)

/-- `hookedMouseGetDeviceState` including the null-channel guard. -/
def hookedMouseGetDeviceState (g : Option InputSharedState) (cbData : Nat)
    (real : DIMOUSESTATE) (hr : Int) : Option InputSharedState × DIMOUSESTATE × Int :=
  match g with
  | none => (none, real, hr)
  | some s =>
    let r := mouseHookStep s cbData real hr
    (some r.1, r.2)

/-- Write one byte of the 256-byte keyboard state buffer. -/
def setByte (buf : Nat → Nat) (i v : Nat) : Nat → Nat :=
  fun j => if j = i then v else buf j

/-- `hookedKeyboardGetDeviceState` (dinput-hook.c lines 253-305), given a
non-null channel pointer. The keyboard buffer is modelled as a function from
byte index to byte value. Note that when the switch matches no case the C
function falls through to `return DI_OK` with the buffer unmodified. -/
def kbHookStep (s : InputSharedState) (cbData : Nat) (real : Nat → Nat)
    (hr : Int) : InputSharedState × (Nat → Nat) × Int :=
  if s.cmdType ≠ CMD_KEYPRESS ∨ s.done ≠ 0 then (s, real, hr)
  else if cbData < 256 then (s, real, hr)
  else if s.keyCode < 0 ∨ 256 ≤ s.keyCode then (s, real, hr)
  else
    let dik := s.keyCode.toNat
    let s1 : InputSharedState :=
      if s.phase = PHASE_IDLE then
        { s with phase := PHASE_KEY_DOWN, frameCount := 0 }
      else s
    if s1.phase = PHASE_KEY_DOWN then
      ({ s1 with phase := PHASE_KEY_HOLD1, frameCount := 0 },
       setByte real dik 0x80, DI_OK)
    else if s1.phase = PHASE_KEY_HOLD1 then
      ({ s1 with phase := PHASE_KEY_HOLD2 }, setByte real dik 0x80, DI_OK)
    else if s1.phase = PHASE_KEY_HOLD2 then
      ({ s1 with phase := PHASE_KEY_UP }, setByte real dik 0x80, DI_OK)
    else if s1.phase = PHASE_KEY_UP then
      ({ s1 with phase := PHASE_IDLE, cmdType := CMD_NONE, done := 1, frameCount := 0 },
       setByte real dik 0x00, DI_OK)
    else (s1, real, DI_OK)

/-- `hookedKeyboardGetDeviceState` including the null-channel guard. -/
def hookedKeyboardGetDeviceState (g : Option InputSharedState) (cbData : Nat)
    (real : Nat → Nat) (hr : Int) : Option InputSharedState × (Nat → Nat) × Int :=
  match g with
  | none => (none, real, hr)
  | some s =>
    let r := kbHookStep s cbData real hr
    (some r.1, r.2)

/-- `hookedMouseGetDeviceData` (dinput-hook.c lines 309-320): the buffered
mouse-event override. Arguments: the (possibly null) channel, and the event
count and HRESULT the real implementation would return. Returns the event
count stored through `pdwInOut` and the HRESULT. -/
def hookedMouseGetDeviceData (g : Option InputSharedState)
    (realCount : Nat) (realHr : Int) : Nat × Int :=
  match g with
  | none => (realCount, realHr)
  | some s =>
    if s.cmdType ≠ CMD_NONE ∧ s.done = 0 then (0, DI_OK)
    else (realCount, realHr)

/-! ## Iterated polling

The state machine is driven by the target polling once per frame. A run is
the channel state after `n` hooked polls; the per-poll real samples and
HRESULTs are arbitrary streams. -/

def mouseRunState (cbData : Nat) (reals : Nat → DIMOUSESTATE) (hrs : Nat → Int)
    (s : InputSharedState) : Nat → InputSharedState
  | 0 => s
  | n + 1 => (mouseHookStep (mouseRunState cbData reals hrs s n) cbData (reals n) (hrs n)).1

/-- The buffer contents returned by poll number `n` (0-indexed: poll `n`
steps from the state after `n` previous polls). -/
def mousePollSample (cbData : Nat) (reals : Nat → DIMOUSESTATE) (hrs : Nat → Int)
    (s : InputSharedState) (n : Nat) : DIMOUSESTATE :=
  (mouseHookStep (mouseRunState cbData reals hrs s n) cbData (reals n) (hrs n)).2.1

def kbRunState (cbData : Nat) (reals : Nat → (Nat → Nat)) (hrs : Nat → Int)
    (s : InputSharedState) : Nat → InputSharedState
  | 0 => s
  | n + 1 => (kbHookStep (kbRunState cbData reals hrs s n) cbData (reals n) (hrs n)).1

def kbPollSample (cbData : Nat) (reals : Nat → (Nat → Nat)) (hrs : Nat → Int)
    (s : InputSharedState) (n : Nat) : Nat → Nat :=
  (kbHookStep (kbRunState cbData reals hrs s n) cbData (reals n) (hrs n)).2.1

/-! ## Controller-side submission (inputctl.c)

The controller writes the payload fields and then `cmdType` as the commit.
The resulting channel state for each subcommand: -/

def submitClick (s : InputSharedState) (x y : Int) : InputSharedState :=
  { s with targetX := x, targetY := y, done := 0, phase := 0,
           frameCount := 0, cmdType := CMD_CLICK }

def submitMove (s : InputSharedState) (x y : Int) : InputSharedState :=
  { s with targetX := x, targetY := y, done := 0, phase := 0,
           frameCount := 0, cmdType := CMD_MOVE }

def submitKey (s : InputSharedState) (k : Int) : InputSharedState :=
  { s with keyCode := k, done := 0, phase := 0,
           frameCount := 0, cmdType := CMD_KEYPRESS }

/-! ## Individual shared-memory writes

To reason about ordering of the interlocked writes within one handler (and
about which channel fields the controller touches on which path), single
field writes are modelled explicitly. -/

inductive ShmWrite where
  | wReady (v : Int)
  | wCmdType (v : Int)
  | wTargetX (v : Int)
  | wTargetY (v : Int)
  | wKeyCode (v : Int)
  | wPhase (v : Int)
  | wDone (v : Int)
  | wFrameCount (v : Int)
  | wCursorX (v : Int)
  | wCursorY (v : Int)
deriving Repr, DecidableEq

def applyWrite (s : InputSharedState) : ShmWrite → InputSharedState
  | .wReady v => { s with ready := v }
  | .wCmdType v => { s with cmdType := v }
  | .wTargetX v => { s with targetX := v }
  | .wTargetY v => { s with targetY := v }
  | .wKeyCode v => { s with keyCode := v }
  | .wPhase v => { s with phase := v }
  | .wDone v => { s with done := v }
  | .wFrameCount v => { s with frameCount := v }
  | .wCursorX v => { s with cursorX := v }
  | .wCursorY v => { s with cursorY := v }

def applyWrites (s : InputSharedState) (ws : List ShmWrite) : InputSharedState :=
  ws.foldl applyWrite s

/-- The ordered channel writes of the `PHASE_BTN_UP` case of the mouse hook
(dinput-hook.c lines 203-206): phase to idle, then command kind to none,
then done to 1, then frameCount to 0. -/
def btnUpWrites : List ShmWrite :=
  [.wPhase PHASE_IDLE, .wCmdType CMD_NONE, .wDone 1, .wFrameCount 0]

/-- The ordered channel writes of the `PHASE_MOVE_SETTLE` case
(dinput-hook.c lines 237-240): same order as the click terminal case. -/
def moveSettleWrites : List ShmWrite := btnUpWrites

/-- The ordered channel writes of the `PHASE_KEY_UP` case
(dinput-hook.c lines 297-300): same order again. -/
def keyUpWrites : List ShmWrite := btnUpWrites

/-! ## Controller (inputctl.c) -/

/-- Leading-digit accumulator of C `atoi`: consume digits, stop at the
first non-digit. -/
def atoiDigits : List Char → Nat → Nat
  | c :: cs, acc =>
    if c.isDigit then atoiDigits cs (acc * 10 + (c.toNat - 48)) else acc
  | [], acc => acc

/-- C `atoi` as used on the numeric command-line arguments: skip leading
whitespace, optional sign, then leading digits (0 when none). -/
def atoi (str : String) : Int :=
  let cs := str.toList.dropWhile (fun c => c = ' ' ∨ c = '\t' ∨ c = '\n' ∨ c = '\r')
  match cs with
  | '-' :: rest => -(atoiDigits rest 0 : Int)
  | '+' :: rest => (atoiDigits rest 0 : Int)
  | _ => (atoiDigits cs 0 : Int)

/-- The polling loop of `waitForCompletion` (inputctl.c lines 43-53): check
`done`, sleep 16 ms, bump `elapsed` by 16, while `elapsed < timeoutMs`.
`doneAt i` is the value read from the done flag on iteration `i`; the loop
body runs `⌈timeoutMs / 16⌉` times. Returns 0 on success, 1 on timeout. -/
def waitLoop (doneAt : Nat → Bool) : Nat → Nat → Nat
  | _, 0 => 1
  | i, fuel + 1 => if doneAt i then 0 else waitLoop doneAt (i + 1) fuel

def waitForCompletion (doneAt : Nat → Bool) (timeoutMs : Nat) : Nat :=
  waitLoop doneAt 0 ((timeoutMs + 15) / 16)

/-- Everything `main` of inputctl.c observes from its environment: whether
the shared-memory channel could be opened and mapped, the values read from
`ready` and (before submitting) `cmdType`, and the sequences of `done`
values read by the stale-command wait and by the post-submission wait. -/
structure CtlEnv where
  openOk : Bool
  ready : Int
  cmdType0 : Int
  doneSeqStale : Nat → Bool
  doneSeqCmd : Nat → Bool

/-- Channel writes of the click submission (inputctl.c lines 103-108),
in program order: payload first, `cmdType` last as the commit. -/
def clickWrites (x y : Int) : List ShmWrite :=
  [.wTargetX x, .wTargetY y, .wDone 0, .wPhase 0, .wFrameCount 0, .wCmdType CMD_CLICK]

/-- Channel writes of the move submission (inputctl.c lines 127-132). -/
def moveWrites (x y : Int) : List ShmWrite :=
  [.wTargetX x, .wTargetY y, .wDone 0, .wPhase 0, .wFrameCount 0, .wCmdType CMD_MOVE]

/-- Channel writes of the key submission (inputctl.c lines 150-154). -/
def keyWrites (k : Int) : List ShmWrite :=
  [.wKeyCode k, .wDone 0, .wPhase 0, .wFrameCount 0, .wCmdType CMD_KEYPRESS]

/-- `main` of inputctl.c as a pure function: returns the process exit code
and the ordered list of channel writes performed. `args` is `argv`
without the program name (so `argc = args.length + 1`). -/
def inputctlMain (args : List String) (env : CtlEnv) : Nat × List ShmWrite :=
  match args with
  | [] => (1, [])
  | cmd :: rest =>
    if env.openOk = false then (2, [])
    else if cmd = "status" then
      (if env.ready = 1 then (0, []) else (1, []))
    else if env.ready ≠ 1 then (2, [])
    else if env.cmdType0 ≠ CMD_NONE ∧ waitForCompletion env.doneSeqStale 5000 = 1 then
      (3, [])
    else if cmd = "click" then
      match rest with
      | x :: y :: _ =>
        (if waitForCompletion env.doneSeqCmd 10000 = 1 then 3 else 0,
         clickWrites (atoi x) (atoi y))
      | _ => (1, [])
    else if cmd = "move" then
      match rest with
      | x :: y :: _ =>
        (if waitForCompletion env.doneSeqCmd 10000 = 1 then 3 else 0,
         moveWrites (atoi x) (atoi y))
      | _ => (1, [])
    else if cmd = "key" then
      match rest with
      | k :: _ =>
        (if waitForCompletion env.doneSeqCmd 10000 = 1 then 3 else 0,
         keyWrites (atoi k))
      | _ => (1, [])
    else (1, [])

/-! ## The click(400, 300) scenario against an all-zero real device -/

/-- Channel state right after `inputctl.exe click 400 300` commits. -/
def clickScen : InputSharedState := submitClick initShm 400 300

/-- Channel state of the scenario after `n` polls of the mouse hook, each
poll receiving an all-zero real sample and a success HRESULT. -/
def clickScenState (n : Nat) : InputSharedState :=
  mouseRunState sizeofDIMOUSESTATE (fun _ => zeroMouse) (fun _ => 0) clickScen n

/-- The synthetic sample returned by poll number `n` (0-indexed) of the
scenario. -/
def clickScenSample (n : Nat) : DIMOUSESTATE :=
  mousePollSample sizeofDIMOUSESTATE (fun _ => zeroMouse) (fun _ => 0) clickScen n

/-- Pre-state of a click sequence one poll before completion. -/
def preBtnUp : InputSharedState :=
  { initShm with cmdType := CMD_CLICK, targetX := 400, targetY := 300,
                 phase := PHASE_BTN_UP, cursorX := 400, cursorY := 300 }

/-! ## Helper lemmas -/

/-- A wait whose every read of the done flag comes back false times out. -/
theorem waitLoop_never (doneAt : Nat → Bool) (h : ∀ i, doneAt i = false) :
    ∀ fuel i, waitLoop doneAt i fuel = 1 := by
  intro fuel
  induction fuel with
  | zero => intro i; rfl
  | succ n ih => intro i; simp [waitLoop, h i, ih]

theorem waitForCompletion_never (doneAt : Nat → Bool) (h : ∀ i, doneAt i = false)
    (timeoutMs : Nat) : waitForCompletion doneAt timeoutMs = 1 :=
  waitLoop_never doneAt h _ _

/-- A wait that sees the done flag already set on its first read succeeds
(the loop bound `⌈timeoutMs/16⌉` is positive whenever `timeoutMs > 0`). -/
theorem waitForCompletion_first (doneAt : Nat → Bool) (h : doneAt 0 = true)
    (timeoutMs : Nat) (ht : 0 < timeoutMs) : waitForCompletion doneAt timeoutMs = 0 := by
  unfold waitForCompletion
  have : (timeoutMs + 15) / 16 ≠ 0 := by omega
  obtain ⟨n, hn⟩ := Nat.exists_eq_succ_of_ne_zero this
  rw [hn]
  simp [waitLoop, h]

/-- The write list of the `PHASE_BTN_UP` case agrees with the state the
step function produces: folding the writes over the pre-state yields the
post-state of the hook call. -/
theorem btnUpWrites_ground (s : InputSharedState) (cbData : Nat)
    (real : DIMOUSESTATE) (hr : Int)
    (hc : s.cmdType = CMD_CLICK) (hd : s.done = 0) (hp : s.phase = PHASE_BTN_UP)
    (hcb : sizeofDIMOUSESTATE ≤ cbData) :
    (mouseHookStep s cbData real hr).1 = applyWrites s btnUpWrites := by
  have h1 : ¬ (cbData < sizeofDIMOUSESTATE) := by omega
  simp [mouseHookStep, applyWrites, applyWrite, btnUpWrites, hc, hd, hp, h1,
    CMD_NONE, CMD_CLICK, CMD_MOVE, PHASE_IDLE, PHASE_RESET, PHASE_MOVETO,
    PHASE_SETTLE, PHASE_BTN_DOWN, PHASE_BTN_HOLD, PHASE_BTN_UP]

/-- The click submission state equals the click write list applied in order. -/
theorem clickWrites_ground (s : InputSharedState) (x y : Int) :
    applyWrites s (clickWrites x y) = submitClick s x y := by
  simp [applyWrites, applyWrite, clickWrites, submitClick]

/-- Channel states along a click run: starting from an idle channel holding
a click command, the seven successive polls of the mouse hook produce these
states (RESET, MOVETO, SETTLE, BTN_DOWN, two BTN_HOLD polls, BTN_UP). -/
theorem clickRun_states (cb : Nat) (reals : Nat → DIMOUSESTATE) (hrs : Nat → Int)
    (s : InputSharedState) (hcb : sizeofDIMOUSESTATE ≤ cb)
    (hc : s.cmdType = CMD_CLICK) (hp : s.phase = PHASE_IDLE) (hd : s.done = 0) :
    mouseRunState cb reals hrs s 1 =
      { s with cursorX := 0, cursorY := 0, phase := PHASE_MOVETO, frameCount := 0 } ∧
    mouseRunState cb reals hrs s 2 =
      { s with cursorX := s.targetX, cursorY := s.targetY,
               phase := PHASE_SETTLE, frameCount := 0 } ∧
    mouseRunState cb reals hrs s 3 =
      { s with cursorX := s.targetX, cursorY := s.targetY,
               phase := PHASE_BTN_DOWN, frameCount := 0 } ∧
    mouseRunState cb reals hrs s 4 =
      { s with cursorX := s.targetX, cursorY := s.targetY,
               phase := PHASE_BTN_HOLD, frameCount := 0 } ∧
    mouseRunState cb reals hrs s 5 =
      { s with cursorX := s.targetX, cursorY := s.targetY,
               phase := PHASE_BTN_HOLD, frameCount := 1 } ∧
    mouseRunState cb reals hrs s 6 =
      { s with cursorX := s.targetX, cursorY := s.targetY,
               phase := PHASE_BTN_UP, frameCount := 0 } ∧
    mouseRunState cb reals hrs s 7 =
      { s with cursorX := s.targetX, cursorY := s.targetY, phase := PHASE_IDLE,
               cmdType := CMD_NONE, done := 1, frameCount := 0 } := by
  have hlt : ¬ (cb < sizeofDIMOUSESTATE) := by omega
  obtain ⟨rd, ct, tx, ty, kc, ph, dn, fc, cx, cy⟩ := s
  simp only [InputSharedState.mk.injEq] at *
  subst hc hp hd
  simp [mouseRunState, mouseHookStep, mouseDispatch, hlt,
    CMD_NONE, CMD_CLICK, CMD_MOVE, PHASE_IDLE, PHASE_RESET, PHASE_MOVETO,
    PHASE_SETTLE, PHASE_BTN_DOWN, PHASE_BTN_HOLD, PHASE_BTN_UP,
    PHASE_MOVE_RESET, PHASE_MOVE_TO, PHASE_MOVE_SETTLE]

/-- Channel states along a key-press run: starting from an idle channel
holding a keypress command with an in-range key code, the four successive
polls of the keyboard hook produce these states. -/
theorem keyRun_states (cb : Nat) (reals : Nat → (Nat → Nat)) (hrs : Nat → Int)
    (s : InputSharedState) (hcb : 256 ≤ cb)
    (hc : s.cmdType = CMD_KEYPRESS) (hp : s.phase = PHASE_IDLE) (hd : s.done = 0)
    (hk0 : 0 ≤ s.keyCode) (hk1 : s.keyCode < 256) :
    kbRunState cb reals hrs s 1 = { s with phase := PHASE_KEY_HOLD1, frameCount := 0 } ∧
    kbRunState cb reals hrs s 2 = { s with phase := PHASE_KEY_HOLD2, frameCount := 0 } ∧
    kbRunState cb reals hrs s 3 = { s with phase := PHASE_KEY_UP, frameCount := 0 } ∧
    kbRunState cb reals hrs s 4 =
      { s with phase := PHASE_IDLE, cmdType := CMD_NONE, done := 1, frameCount := 0 } := by
  have hlt : ¬ (cb < 256) := by omega
  obtain ⟨rd, ct, tx, ty, kc, ph, dn, fc, cx, cy⟩ := s
  simp only [InputSharedState.mk.injEq] at *
  subst hc hp hd
  simp [kbRunState, kbHookStep, hlt, show ¬ (kc < 0) by omega, show ¬ (256 ≤ kc) by omega,
    CMD_NONE, CMD_KEYPRESS, PHASE_IDLE, PHASE_KEY_DOWN, PHASE_KEY_HOLD1,
    PHASE_KEY_HOLD2, PHASE_KEY_UP]

/-- C1 (counterexample): the claim says the click(400, 300) scenario reaches
done=1 in exactly 6 poll cycles; in fact after 6 polls the channel is still
in the second BTN_HOLD poll aftermath (phase BTN_UP) and done is not yet
set. -/
theorem C1_six_polls_not_done :
    (clickScenState 6).done = 0 ∧ (clickScenState 6).phase = PHASE_BTN_UP := by
  refine ⟨by decide, by decide⟩

/-- C1 (amended): submitting click(400, 300) against a target whose real
sampled-state query returns all-zero samples reaches done=1 in exactly 7
poll cycles of the mouse sampled-state override (not 6: RESET, MOVETO,
SETTLE, BTN_DOWN take one poll each, BTN_HOLD takes two polls, BTN_UP the
seventh), and the synthetic sample returned on the 2nd poll cycle has delta
(lX, lY) equal to the target coordinates (400, 300) minus the clamped RESET
origin (0, 0) recorded in the channel cursor fields. -/
theorem C1_click_seven_polls :
    (clickScenState 7).done = 1 ∧
    (∀ n, n < 7 → (clickScenState n).done = 0) ∧
    (clickScenState 1).cursorX = 0 ∧ (clickScenState 1).cursorY = 0 ∧
    (clickScenSample 1).lX = 400 - (clickScenState 1).cursorX ∧
    (clickScenSample 1).lY = 300 - (clickScenState 1).cursorY := by
  refine ⟨by decide, by decide, by decide, by decide, by decide, by decide⟩

/-- Witness for C1: the bounded quantifier instantiated at poll 3. -/
theorem C1_click_seven_polls_witness : (clickScenState 3).done = 0 :=
  C1_click_seven_polls.2.1 3 (by decide)

/-- C2 (confirmed): for every click command, the sequence of phases executed
by successive mouse sampled-state polls starting from idle is exactly RESET,
MOVETO, SETTLE, BTN_DOWN, BTN_HOLD twice (so at least 2 times), BTN_UP, in
that order, with no phase skipped and none repeated except BTN_HOLD; the
BTN_UP poll sets done, resets the phase to idle and clears the command
kind, and done stays clear until then. -/
theorem C2_click_phase_sequence (cb : Nat) (reals : Nat → DIMOUSESTATE)
    (hrs : Nat → Int) (s : InputSharedState) (hcb : sizeofDIMOUSESTATE ≤ cb)
    (hc : s.cmdType = CMD_CLICK) (hp : s.phase = PHASE_IDLE) (hd : s.done = 0) :
    (List.range 7).map (fun n => mouseDispatch (mouseRunState cb reals hrs s n)) =
      [PHASE_RESET, PHASE_MOVETO, PHASE_SETTLE, PHASE_BTN_DOWN,
       PHASE_BTN_HOLD, PHASE_BTN_HOLD, PHASE_BTN_UP] ∧
    (∀ n, n < 7 → (mouseRunState cb reals hrs s n).done = 0) ∧
    (mouseRunState cb reals hrs s 7).done = 1 ∧
    (mouseRunState cb reals hrs s 7).phase = PHASE_IDLE ∧
    (mouseRunState cb reals hrs s 7).cmdType = CMD_NONE := by
  obtain ⟨h1, h2, h3, h4, h5, h6, h7⟩ := clickRun_states cb reals hrs s hcb hc hp hd
  have hr : List.range 7 = [0, 1, 2, 3, 4, 5, 6] := by decide
  refine ⟨?_, ?_, ?_, ?_, ?_⟩
  · simp only [hr, List.map_cons, List.map_nil]
    show [mouseDispatch s, _, _, _, _, _, _] = _
    rw [h1, h2, h3, h4, h5, h6]
    simp [mouseDispatch, hc, hp, PHASE_IDLE, PHASE_RESET, PHASE_MOVETO,
      PHASE_SETTLE, PHASE_BTN_DOWN, PHASE_BTN_HOLD, PHASE_BTN_UP, CMD_CLICK]
  · intro n hn
    interval_cases n
    · exact hd
    · rw [h1]; exact hd
    · rw [h2]; exact hd
    · rw [h3]; exact hd
    · rw [h4]; exact hd
    · rw [h5]; exact hd
    · rw [h6]; exact hd
  · rw [h7]
  · rw [h7]
  · rw [h7]

/-- Witness for C2: the phase sequence of the concrete click(400, 300)
scenario state, with every hypothesis discharged by evaluation. -/
theorem C2_click_phase_sequence_witness :
    (List.range 7).map (fun n => mouseDispatch (mouseRunState sizeofDIMOUSESTATE
        (fun _ => zeroMouse) (fun _ => 0) clickScen n)) =
      [PHASE_RESET, PHASE_MOVETO, PHASE_SETTLE, PHASE_BTN_DOWN,
       PHASE_BTN_HOLD, PHASE_BTN_HOLD, PHASE_BTN_UP] :=
  (C2_click_phase_sequence sizeofDIMOUSESTATE (fun _ => zeroMouse) (fun _ => 0)
    clickScen (by decide) (by decide) (by decide) (by decide)).1

/-- C6 (confirmed): for every in-range target (x, y), after a submitted
click command runs to completion (seven polls), the channel last-cursor
fields equal (x, y), the phase field is idle, the command-kind field is
none, and done is set. -/
theorem C6_click_final_state (s : InputSharedState) (x y : Int) (cb : Nat)
    (reals : Nat → DIMOUSESTATE) (hrs : Nat → Int)
    (hcb : sizeofDIMOUSESTATE ≤ cb)
    (_hx0 : 0 ≤ x) (_hx1 : x ≤ 799) (_hy0 : 0 ≤ y) (_hy1 : y ≤ 599) :
    (mouseRunState cb reals hrs (submitClick s x y) 7).cursorX = x ∧
    (mouseRunState cb reals hrs (submitClick s x y) 7).cursorY = y ∧
    (mouseRunState cb reals hrs (submitClick s x y) 7).phase = PHASE_IDLE ∧
    (mouseRunState cb reals hrs (submitClick s x y) 7).cmdType = CMD_NONE ∧
    (mouseRunState cb reals hrs (submitClick s x y) 7).done = 1 := by
  obtain ⟨-, -, -, -, -, -, h7⟩ := clickRun_states cb reals hrs (submitClick s x y)
    hcb (by simp [submitClick]) (by simp [submitClick, PHASE_IDLE]) (by simp [submitClick])
  rw [h7]
  simp [submitClick]

/-- Witness for C6: the concrete target (5, 7). -/
theorem C6_click_final_state_witness :
    (mouseRunState 16 (fun _ => zeroMouse) (fun _ => 0) (submitClick initShm 5 7) 7).cursorX = 5 ∧
    (mouseRunState 16 (fun _ => zeroMouse) (fun _ => 0) (submitClick initShm 5 7) 7).cursorY = 7 ∧
    (mouseRunState 16 (fun _ => zeroMouse) (fun _ => 0) (submitClick initShm 5 7) 7).phase = PHASE_IDLE ∧
    (mouseRunState 16 (fun _ => zeroMouse) (fun _ => 0) (submitClick initShm 5 7) 7).cmdType = CMD_NONE ∧
    (mouseRunState 16 (fun _ => zeroMouse) (fun _ => 0) (submitClick initShm 5 7) 7).done = 1 :=
  C6_click_final_state initShm 5 7 16 (fun _ => zeroMouse) (fun _ => 0)
    (by decide) (by decide) (by decide) (by decide) (by decide)

/-- C7 (confirmed): a submitted key-press command for an in-range key code
k completes in exactly 4 poll cycles of the keyboard sampled-state override:
the synthetic key-state byte at index k is 0x80 on polls 1 through 3 and
0x00 on poll 4 (0-indexed: polls 0 through 2 and poll 3), done is clear
after polls 0 through 3 and set after poll 4. -/
theorem C7_key_four_polls (s : InputSharedState) (k : Int) (cb : Nat)
    (reals : Nat → (Nat → Nat)) (hrs : Nat → Int)
    (hcb : 256 ≤ cb) (hk0 : 0 ≤ k) (hk1 : k < 256) :
    kbPollSample cb reals hrs (submitKey s k) 0 k.toNat = 0x80 ∧
    kbPollSample cb reals hrs (submitKey s k) 1 k.toNat = 0x80 ∧
    kbPollSample cb reals hrs (submitKey s k) 2 k.toNat = 0x80 ∧
    kbPollSample cb reals hrs (submitKey s k) 3 k.toNat = 0x00 ∧
    (∀ n, n < 4 → (kbRunState cb reals hrs (submitKey s k) n).done = 0) ∧
    (kbRunState cb reals hrs (submitKey s k) 4).done = 1 := by
  have hlt : ¬ (cb < 256) := by omega
  have hklt : ¬ (k < 0) := by omega
  have hkge : ¬ (256 ≤ k) := by omega
  obtain ⟨h1, h2, h3, h4⟩ := keyRun_states cb reals hrs (submitKey s k) hcb
    (by simp [submitKey]) (by simp [submitKey, PHASE_IDLE]) (by simp [submitKey])
    (by simpa [submitKey] using hk0) (by simpa [submitKey] using hk1)
  refine ⟨?_, ?_, ?_, ?_, ?_, ?_⟩
  · show (kbHookStep (kbRunState cb reals hrs (submitKey s k) 0) cb (reals 0) (hrs 0)).2.1 _ = _
    simp [kbRunState, kbHookStep, submitKey, setByte, hlt, hklt, hkge,
      CMD_KEYPRESS, PHASE_IDLE, PHASE_KEY_DOWN, PHASE_KEY_HOLD1]
  · show (kbHookStep (kbRunState cb reals hrs (submitKey s k) 1) cb (reals 1) (hrs 1)).2.1 _ = _
    rw [h1]
    simp [kbHookStep, submitKey, setByte, hlt, hklt, hkge,
      CMD_KEYPRESS, PHASE_IDLE, PHASE_KEY_DOWN, PHASE_KEY_HOLD1, PHASE_KEY_HOLD2]
  · show (kbHookStep (kbRunState cb reals hrs (submitKey s k) 2) cb (reals 2) (hrs 2)).2.1 _ = _
    rw [h2]
    simp [kbHookStep, submitKey, setByte, hlt, hklt, hkge,
      CMD_KEYPRESS, PHASE_IDLE, PHASE_KEY_DOWN, PHASE_KEY_HOLD1, PHASE_KEY_HOLD2,
      PHASE_KEY_UP]
  · show (kbHookStep (kbRunState cb reals hrs (submitKey s k) 3) cb (reals 3) (hrs 3)).2.1 _ = _
    rw [h3]
    simp [kbHookStep, submitKey, setByte, hlt, hklt, hkge,
      CMD_KEYPRESS, PHASE_IDLE, PHASE_KEY_DOWN, PHASE_KEY_HOLD1, PHASE_KEY_HOLD2,
      PHASE_KEY_UP]
  · intro n hn
    interval_cases n
    · simp [kbRunState, submitKey]
    · rw [h1]; simp [submitKey]
    · rw [h2]; simp [submitKey]
    · rw [h3]; simp [submitKey]
  · rw [h4]

/-- Witness for C7: the key(42) scenario of the spec. -/
theorem C7_key_four_polls_witness :
    kbPollSample 256 (fun _ _ => 0) (fun _ => 0) (submitKey initShm 42) 2 (Int.toNat 42) = 0x80 ∧
    (kbRunState 256 (fun _ _ => 0) (fun _ => 0) (submitKey initShm 42) 4).done = 1 :=
  ⟨(C7_key_four_polls initShm 42 256 (fun _ _ => 0) (fun _ => 0)
      (by decide) (by decide) (by decide)).2.2.1,
   (C7_key_four_polls initShm 42 256 (fun _ _ => 0) (fun _ => 0)
      (by decide) (by decide) (by decide)).2.2.2.2.2⟩

/-! ## C3: the buffered-event override -/

/-- C3 (counterexample): the claim says a non-matching command (keypress) in
flight makes the mouse buffered-event override forward to the real
implementation; in fact with a keypress in flight it reports zero events
and DI_OK rather than the real count 5 and the real HRESULT 7. -/
theorem C3_keypress_not_forwarded :
    hookedMouseGetDeviceData (some (submitKey initShm 42)) 5 7 = (0, DI_OK) ∧
    ((0 : Nat), DI_OK) ≠ ((5 : Nat), (7 : Int)) := by decide

/-- C3 (amended): the buffered-event override reports zero available events
(and DI_OK) if and only if a command of any kind — click, move or keypress —
is in flight and not done; for any other channel state, and when the channel
does not exist, it forwards the call to the real buffered-event
implementation. -/
theorem C3_buffered_zero_iff (s : InputSharedState) (realCount : Nat) (realHr : Int) :
    (s.cmdType ≠ CMD_NONE ∧ s.done = 0 →
      hookedMouseGetDeviceData (some s) realCount realHr = (0, DI_OK)) ∧
    (¬ (s.cmdType ≠ CMD_NONE ∧ s.done = 0) →
      hookedMouseGetDeviceData (some s) realCount realHr = (realCount, realHr)) ∧
    hookedMouseGetDeviceData none realCount realHr = (realCount, realHr) := by
  refine ⟨fun h => ?_, fun h => ?_, rfl⟩
  · simp [hookedMouseGetDeviceData, h]
  · simp [hookedMouseGetDeviceData, h]

/-- Witness for C3: a click command in flight suppresses buffered events. -/
theorem C3_buffered_zero_iff_witness :
    hookedMouseGetDeviceData (some clickScen) 3 9 = (0, DI_OK) :=
  (C3_buffered_zero_iff clickScen 3 9).1 (by decide)

/-! ## C4: unrecognized phase handling -/

/-- C4 (counterexample): with a click command in flight and phase 99 the
mouse override does return the real sample and HRESULT unchanged, but it
does not reset the phase to idle — the phase stays 99. Moreover the
keyboard override on an unrecognized phase returns DI_OK (0) instead of
the real HRESULT 7, and a phase of the other mouse sequence
(PHASE_MOVE_RESET under a click command) is executed rather than failed
open: the returned delta is the synthetic -10000, not the real 0. -/
theorem C4_unknown_phase_not_idle :
    (mouseHookStep { initShm with cmdType := CMD_CLICK, phase := 99 } 16 zeroMouse 7).1.phase = 99 ∧
    (99 : Int) ≠ PHASE_IDLE ∧
    (kbHookStep { initShm with cmdType := CMD_KEYPRESS, keyCode := 5, phase := 99 }
        256 (fun _ => 0) 7).2.2 = 0 ∧
    ((0 : Int) ≠ 7) ∧
    (mouseHookStep { initShm with cmdType := CMD_CLICK, phase := PHASE_MOVE_RESET }
        16 zeroMouse 0).2.1.lX = -10000 := by
  refine ⟨by decide, by decide, by rfl, by decide, by decide⟩

/-- C4 (amended): when a sampled-state override is invoked while the phase
field holds a value that is not any phase constant the override dispatches
on, it returns the real sample data unchanged and leaves the whole channel
state unchanged — the phase is NOT reset to idle. The mouse override also
returns the real result code; the keyboard override falls through its
switch and returns DI_OK instead of the real result code. (A phase
belonging to the other mouse sequence than the active command kind is
executed, not failed open.) -/
theorem C4_unrecognized_phase_fail_open (s : InputSharedState) (cb : Nat)
    (mreal : DIMOUSESTATE) (kreal : Nat → Nat) (hr : Int) :
    (s.phase ∉ ([PHASE_IDLE, PHASE_RESET, PHASE_MOVETO, PHASE_SETTLE,
        PHASE_BTN_DOWN, PHASE_BTN_HOLD, PHASE_BTN_UP, PHASE_MOVE_RESET,
        PHASE_MOVE_TO, PHASE_MOVE_SETTLE] : List Int) →
      mouseHookStep s cb mreal hr = (s, mreal, hr)) ∧
    (s.phase ∉ ([PHASE_IDLE, PHASE_KEY_DOWN, PHASE_KEY_HOLD1, PHASE_KEY_HOLD2,
        PHASE_KEY_UP] : List Int) →
      s.cmdType = CMD_KEYPRESS → s.done = 0 → 256 ≤ cb →
      0 ≤ s.keyCode → s.keyCode < 256 →
      kbHookStep s cb kreal hr = (s, kreal, DI_OK)) := by
  constructor
  · intro hm
    simp only [List.mem_cons, List.mem_singleton, not_or] at hm
    obtain ⟨n0, n1, n2, n3, n4, n5, n6, n10, n11, n12⟩ := hm
    by_cases g1 : s.cmdType = CMD_NONE ∨ s.done ≠ 0
    · simp [mouseHookStep, g1]
    · by_cases g2 : s.cmdType ≠ CMD_CLICK ∧ s.cmdType ≠ CMD_MOVE
      · simp [mouseHookStep, g1, g2]
      · by_cases g3 : cb < sizeofDIMOUSESTATE
        · simp [mouseHookStep, g1, g2, g3]
        · simp [mouseHookStep, g1, g2, g3, n0, n1, n2, n3, n4, n5, n6, n10, n11, n12]
  · intro hk hc hd hcb hk0 hk1
    simp only [List.mem_cons, List.mem_singleton, not_or] at hk
    obtain ⟨n0, n20, n21, n22, n23⟩ := hk
    have hlt : ¬ (cb < 256) := by omega
    have hklt : ¬ (s.keyCode < 0) := by omega
    have hkge : ¬ (256 ≤ s.keyCode) := by omega
    simp [kbHookStep, hc, hd, hlt, hklt, hkge, n0, n20, n21, n22, n23, CMD_KEYPRESS]

/-- Witness for C4: a click command stuck at phase 99 yields pass-through on
the mouse override, and a keypress command stuck at phase 99 yields the
unchanged buffer with DI_OK on the keyboard override. -/
theorem C4_unrecognized_phase_fail_open_witness :
    mouseHookStep { initShm with cmdType := CMD_CLICK, phase := 99 } 16 zeroMouse 7 =
      ({ initShm with cmdType := CMD_CLICK, phase := 99 }, zeroMouse, 7) ∧
    kbHookStep { initShm with cmdType := CMD_KEYPRESS, keyCode := 5, phase := 99 }
        256 (fun _ => 0) 7 =
      ({ initShm with cmdType := CMD_KEYPRESS, keyCode := 5, phase := 99 }, (fun _ => 0), DI_OK) :=
  ⟨(C4_unrecognized_phase_fail_open { initShm with cmdType := CMD_CLICK, phase := 99 }
      16 zeroMouse (fun _ => 0) 7).1 (by decide),
   (C4_unrecognized_phase_fail_open { initShm with cmdType := CMD_KEYPRESS, keyCode := 5, phase := 99 }
      256 zeroMouse (fun _ => 0) 7).2 (by decide) (by decide) (by decide) (by decide)
      (by decide) (by decide)⟩

/-- Across one mouse hook invocation the channel command kind and done
flag either both stay what they were, or the terminal handler sets
cmdType := none together with done := 1. -/

theorem mouseHookStep_cmd_done (s : InputSharedState) (cb : Nat)
    (real : DIMOUSESTATE) (hr : Int) :
    ((mouseHookStep s cb real hr).1.cmdType = s.cmdType ∧
     (mouseHookStep s cb real hr).1.done = s.done) ∨
    ((mouseHookStep s cb real hr).1.cmdType = CMD_NONE ∧
     (mouseHookStep s cb real hr).1.done = 1) := by
  by_cases g1 : s.cmdType = CMD_NONE ∨ s.done ≠ 0
  · left; simp [mouseHookStep, g1]
  by_cases g2 : s.cmdType ≠ CMD_CLICK ∧ s.cmdType ≠ CMD_MOVE
  · left; simp [mouseHookStep, g1, g2]
  by_cases g3 : cb < sizeofDIMOUSESTATE
  · left; simp [mouseHookStep, g1, g2, g3]
  have hd : s.done = 0 := by tauto
  by_cases hp0 : s.phase = PHASE_IDLE
  · by_cases hcc : s.cmdType = CMD_CLICK
    · left
      simp [mouseHookStep, mouseDispatch, g1, g2, g3, hp0, hcc, hd, PHASE_IDLE,
        PHASE_RESET, PHASE_MOVETO, CMD_NONE, CMD_CLICK]
    · have hcm : s.cmdType = CMD_MOVE := by tauto
      left
      simp [mouseHookStep, mouseDispatch, g1, g2, g3, hp0, hcc, hcm, hd,
        PHASE_IDLE, PHASE_RESET, PHASE_MOVETO, PHASE_SETTLE, PHASE_BTN_DOWN,
        PHASE_BTN_HOLD, PHASE_BTN_UP, PHASE_MOVE_RESET, PHASE_MOVE_TO,
        CMD_NONE, CMD_CLICK, CMD_MOVE]
  by_cases h1 : s.phase = PHASE_RESET
  · left; simp [mouseHookStep, g1, g2, g3, hp0, h1, PHASE_IDLE, PHASE_RESET]
  by_cases h2 : s.phase = PHASE_MOVETO
  · left
    simp [mouseHookStep, g1, g2, g3, hp0, h1, h2, PHASE_IDLE, PHASE_RESET,
      PHASE_MOVETO]
  by_cases h3 : s.phase = PHASE_SETTLE
  · left
    simp [mouseHookStep, g1, g2, g3, hp0, h1, h2, h3, PHASE_IDLE, PHASE_RESET,
      PHASE_MOVETO, PHASE_SETTLE]
  by_cases h4 : s.phase = PHASE_BTN_DOWN
  · left
    simp [mouseHookStep, g1, g2, g3, hp0, h1, h2, h3, h4, PHASE_IDLE,
      PHASE_RESET, PHASE_MOVETO, PHASE_SETTLE, PHASE_BTN_DOWN]
  by_cases h5 : s.phase = PHASE_BTN_HOLD
  · left
    by_cases hfc : s.frameCount + 1 ≥ 2
    · simp [mouseHookStep, g1, g2, g3, hp0, h1, h2, h3, h4, h5, hfc, PHASE_IDLE,
        PHASE_RESET, PHASE_MOVETO, PHASE_SETTLE, PHASE_BTN_DOWN, PHASE_BTN_HOLD]
    · simp [mouseHookStep, g1, g2, g3, hp0, h1, h2, h3, h4, h5, hfc, PHASE_IDLE,
        PHASE_RESET, PHASE_MOVETO, PHASE_SETTLE, PHASE_BTN_DOWN, PHASE_BTN_HOLD]
  by_cases h6 : s.phase = PHASE_BTN_UP
  · right
    simp [mouseHookStep, g1, g2, g3, hp0, h1, h2, h3, h4, h5, h6, PHASE_IDLE,
      PHASE_RESET, PHASE_MOVETO, PHASE_SETTLE, PHASE_BTN_DOWN, PHASE_BTN_HOLD,
      PHASE_BTN_UP]
  by_cases h10 : s.phase = PHASE_MOVE_RESET
  · left
    simp [mouseHookStep, g1, g2, g3, hp0, h1, h2, h3, h4, h5, h6, h10,
      PHASE_IDLE, PHASE_RESET, PHASE_MOVETO, PHASE_SETTLE, PHASE_BTN_DOWN,
      PHASE_BTN_HOLD, PHASE_BTN_UP, PHASE_MOVE_RESET]
  by_cases h11 : s.phase = PHASE_MOVE_TO
  · left
    simp [mouseHookStep, g1, g2, g3, hp0, h1, h2, h3, h4, h5, h6, h10, h11,
      PHASE_IDLE, PHASE_RESET, PHASE_MOVETO, PHASE_SETTLE, PHASE_BTN_DOWN,
      PHASE_BTN_HOLD, PHASE_BTN_UP, PHASE_MOVE_RESET, PHASE_MOVE_TO]
  by_cases h12 : s.phase = PHASE_MOVE_SETTLE
  · right
    simp [mouseHookStep, g1, g2, g3, hp0, h1, h2, h3, h4, h5, h6, h10, h11, h12,
      PHASE_IDLE, PHASE_RESET, PHASE_MOVETO, PHASE_SETTLE, PHASE_BTN_DOWN,
      PHASE_BTN_HOLD, PHASE_BTN_UP, PHASE_MOVE_RESET, PHASE_MOVE_TO,
      PHASE_MOVE_SETTLE]
  · left
    simp [mouseHookStep, g1, g2, g3, hp0, h1, h2, h3, h4, h5, h6, h10, h11, h12]

/-- Across one keyboard hook invocation the channel command kind and done
flag either both stay what they were, or the terminal handler sets
cmdType := none together with done := 1. -/
theorem kbHookStep_cmd_done (s : InputSharedState) (cb : Nat)
    (real : Nat → Nat) (hr : Int) :
    ((kbHookStep s cb real hr).1.cmdType = s.cmdType ∧
     (kbHookStep s cb real hr).1.done = s.done) ∨
    ((kbHookStep s cb real hr).1.cmdType = CMD_NONE ∧
     (kbHookStep s cb real hr).1.done = 1) := by
  by_cases g1 : s.cmdType ≠ CMD_KEYPRESS ∨ s.done ≠ 0
  · left; simp [kbHookStep, g1]
  by_cases g2 : cb < 256
  · left; simp [kbHookStep, g1, g2]
  by_cases g3 : s.keyCode < 0 ∨ 256 ≤ s.keyCode
  · left; simp [kbHookStep, g1, g2, g3]
  by_cases hp0 : s.phase = PHASE_IDLE
  · left
    simp [kbHookStep, g1, g2, g3, hp0, PHASE_IDLE, PHASE_KEY_DOWN, PHASE_KEY_HOLD1]
  by_cases h20 : s.phase = PHASE_KEY_DOWN
  · left
    simp [kbHookStep, g1, g2, g3, hp0, h20, PHASE_IDLE, PHASE_KEY_DOWN,
      PHASE_KEY_HOLD1]
  by_cases h21 : s.phase = PHASE_KEY_HOLD1
  · left
    simp [kbHookStep, g1, g2, g3, hp0, h20, h21, PHASE_IDLE, PHASE_KEY_DOWN,
      PHASE_KEY_HOLD1, PHASE_KEY_HOLD2]
  by_cases h22 : s.phase = PHASE_KEY_HOLD2
  · left
    simp [kbHookStep, g1, g2, g3, hp0, h20, h21, h22, PHASE_IDLE, PHASE_KEY_DOWN,
      PHASE_KEY_HOLD1, PHASE_KEY_HOLD2, PHASE_KEY_UP]
  by_cases h23 : s.phase = PHASE_KEY_UP
  · right
    simp [kbHookStep, g1, g2, g3, hp0, h20, h21, h22, h23, PHASE_IDLE,
      PHASE_KEY_DOWN, PHASE_KEY_HOLD1, PHASE_KEY_HOLD2, PHASE_KEY_UP]
  · left
    simp [kbHookStep, g1, g2, g3, hp0, h20, h21, h22, h23]

/-! ## C5: command kind cleared only with done -/

/-- C5 (counterexample): the BTN_UP handler performs its interlocked writes
in the order phase := idle, cmdType := none, done := 1, frameCount := 0
(dinput-hook.c lines 203-206); after the first two writes and before the
done write the observable channel state has the command kind cleared to
none while done is still 0, contradicting the claim that no Shim write
ever produces such a state. The first conjunct grounds the write list: the
full write list applied in order equals the state the hook call produces. -/
theorem C5_intermediate_cleared_not_done :
    (mouseHookStep preBtnUp 16 zeroMouse 0).1 = applyWrites preBtnUp btnUpWrites ∧
    (applyWrites preBtnUp (btnUpWrites.take 2)).cmdType = CMD_NONE ∧
    (applyWrites preBtnUp (btnUpWrites.take 2)).done = 0 := by
  refine ⟨by decide, by decide, by decide⟩

/-- C5 (amended): the Shim clears the command-kind field to none only in
the terminal-phase handler of the active command, which also sets done=1
within the same hook invocation: after any complete sampled-state hook
invocation that starts with a command in flight, command kind = none
implies done = 1. However, inside the terminal handler the cmdType write
precedes the done write, so between the two interlocked writes a concurrent
reader can observe command kind = none with done = 0. -/
theorem C5_cmd_cleared_only_with_done (s : InputSharedState) (cb : Nat)
    (mreal : DIMOUSESTATE) (kreal : Nat → Nat) (hr : Int)
    (h : s.cmdType ≠ CMD_NONE) :
    ((mouseHookStep s cb mreal hr).1.cmdType = CMD_NONE →
      (mouseHookStep s cb mreal hr).1.done = 1) ∧
    ((kbHookStep s cb kreal hr).1.cmdType = CMD_NONE →
      (kbHookStep s cb kreal hr).1.done = 1) := by
  constructor
  · intro hclr
    rcases mouseHookStep_cmd_done s cb mreal hr with ⟨hc, -⟩ | ⟨-, hd1⟩
    · exact absurd (hc.symm.trans hclr) h
    · exact hd1
  · intro hclr
    rcases kbHookStep_cmd_done s cb kreal hr with ⟨hc, -⟩ | ⟨-, hd1⟩
    · exact absurd (hc.symm.trans hclr) h
    · exact hd1

/-- Witness for C5: at the concrete BTN_UP pre-state the completed hook
invocation that clears the command kind has indeed set done. -/
theorem C5_cmd_cleared_only_with_done_witness :
    (mouseHookStep preBtnUp 16 zeroMouse 0).1.done = 1 :=
  (C5_cmd_cleared_only_with_done preBtnUp 16 zeroMouse (fun _ => 0) 0
    (by decide)).1 (by decide)

/-! ## C8: controller exit codes -/

/-- C8 (confirmed): the controller exits 0 on command success, 3 on
timeout, 2 when the shared-memory channel cannot be opened (and also when
the hook is not ready), 1 on malformed arguments (no subcommand, missing
numeric arguments, unknown subcommand); the status subcommand exits 0 when
ready = 1 and 1 otherwise; and when the channel is not ready a submission
fails immediately with exit 2 and no channel write, independent of any
done-flag observations. -/
theorem C8_controller_exit_codes (env : CtlEnv) (c xs ys : String)
    (rest : List String) :
    inputctlMain [] env = (1, []) ∧
    (env.openOk = false → inputctlMain (c :: rest) env = (2, [])) ∧
    (env.openOk = true →
      (inputctlMain ["status"] env).1 = (if env.ready = 1 then 0 else 1)) ∧
    (env.openOk = true → env.ready ≠ 1 → c ≠ "status" →
      inputctlMain (c :: rest) env = (2, [])) ∧
    (env.openOk = true → env.ready = 1 → env.cmdType0 = CMD_NONE →
      env.doneSeqCmd 0 = true →
      inputctlMain ["click", xs, ys] env = (0, clickWrites (atoi xs) (atoi ys)) ∧
      inputctlMain ["move", xs, ys] env = (0, moveWrites (atoi xs) (atoi ys)) ∧
      inputctlMain ["key", xs] env = (0, keyWrites (atoi xs))) ∧
    (env.openOk = true → env.ready = 1 → env.cmdType0 = CMD_NONE →
      (∀ i, env.doneSeqCmd i = false) →
      inputctlMain ["click", xs, ys] env = (3, clickWrites (atoi xs) (atoi ys)) ∧
      inputctlMain ["move", xs, ys] env = (3, moveWrites (atoi xs) (atoi ys)) ∧
      inputctlMain ["key", xs] env = (3, keyWrites (atoi xs))) ∧
    (env.openOk = true → env.ready = 1 → env.cmdType0 = CMD_NONE →
      inputctlMain ["click"] env = (1, []) ∧
      inputctlMain ["move", xs] env = (1, []) ∧
      inputctlMain ["key"] env = (1, []) ∧
      (c ≠ "status" → c ≠ "click" → c ≠ "move" → c ≠ "key" →
        inputctlMain [c] env = (1, []))) := by
  refine ⟨?_, ?_, ?_, ?_, ?_, ?_, ?_⟩
  · simp [inputctlMain]
  · intro h; simp [inputctlMain, h]
  · intro h
    by_cases hr : env.ready = 1 <;> simp [inputctlMain, h, hr]
  · intro h hr hs; simp [inputctlMain, h, hr, hs]
  · intro h hr hc0 hdone
    have hw : waitForCompletion env.doneSeqCmd 10000 = 0 :=
      waitForCompletion_first env.doneSeqCmd hdone 10000 (by omega)
    refine ⟨?_, ?_, ?_⟩ <;> simp [inputctlMain, h, hr, hc0, hw]
  · intro h hr hc0 hnever
    have hw : waitForCompletion env.doneSeqCmd 10000 = 1 :=
      waitForCompletion_never env.doneSeqCmd hnever 10000
    refine ⟨?_, ?_, ?_⟩ <;> simp [inputctlMain, h, hr, hc0, hw]
  · intro h hr hc0
    refine ⟨?_, ?_, ?_, ?_⟩
    · simp [inputctlMain, h, hr, hc0]
    · simp [inputctlMain, h, hr, hc0]
    · simp [inputctlMain, h, hr, hc0]
    · intro n1 n2 n3 n4; simp [inputctlMain, h, hr, hc0, n1, n2, n3, n4]

/-- Witness for C8: a successful `click 400 300` with the hook attached and
the done flag observed set exits 0 after writing the submission. -/
theorem C8_controller_exit_codes_witness :
    inputctlMain ["click", "400", "300"]
        ⟨true, 1, 0, fun _ => false, fun _ => true⟩
      = (0, clickWrites (atoi "400") (atoi "300")) :=
  ((C8_controller_exit_codes ⟨true, 1, 0, fun _ => false, fun _ => true⟩
      "x" "400" "300" []).2.2.2.2.1 rfl rfl rfl rfl).1

/-! ## C9: timeout leaves the channel untouched -/

/-- C9 (confirmed): when a command does not complete within the wait bound
(10 s after submission, 5 s waiting out a stale prior command) the
controller reports exit code 3, and it performs no channel write from the
moment the timeout is detected: the write list it produces does not depend
on the outcome of the post-submission wait at all (every write precedes
that wait), a stale-command timeout produces no write whatsoever, and a
post-submission timeout leaves exactly the pre-wait submission writes. -/
theorem C9_timeout_no_writes (args : List String) (env : CtlEnv)
    (d d' : Nat → Bool) (xs ys : String) (rest : List String) :
    (inputctlMain args { env with doneSeqCmd := d }).2 =
      (inputctlMain args { env with doneSeqCmd := d' }).2 ∧
    (env.openOk = true → env.ready = 1 → env.cmdType0 ≠ CMD_NONE →
      (∀ i, env.doneSeqStale i = false) →
      1 ≤ args.length → args.headD "" ≠ "status" →
      inputctlMain args env = (3, [])) ∧
    (env.openOk = true → env.ready = 1 → env.cmdType0 = CMD_NONE →
      (∀ i, env.doneSeqCmd i = false) →
      inputctlMain ("click" :: xs :: ys :: rest) env
          = (3, clickWrites (atoi xs) (atoi ys)) ∧
      inputctlMain ("move" :: xs :: ys :: rest) env
          = (3, moveWrites (atoi xs) (atoi ys)) ∧
      inputctlMain ("key" :: xs :: rest) env = (3, keyWrites (atoi xs))) := by
  refine ⟨?_, ?_, ?_⟩
  · cases args with
    | nil => rfl
    | cons cmd rest =>
      by_cases h2 : env.openOk = false
      · simp [inputctlMain, h2]
      by_cases h3 : cmd = "status"
      · simp [inputctlMain, h2, h3]
      by_cases h4 : env.ready ≠ 1
      · simp [inputctlMain, h2, h3, h4]
      by_cases h5 : env.cmdType0 ≠ CMD_NONE ∧ waitForCompletion env.doneSeqStale 5000 = 1
      · simp [inputctlMain, h2, h3, h4, h5]
      by_cases h6 : cmd = "click"
      · rcases rest with _ | ⟨x, _ | ⟨y, rest2⟩⟩ <;>
          simp [inputctlMain, h2, h3, h4, h5, h6]
      by_cases h8 : cmd = "move"
      · rcases rest with _ | ⟨x, _ | ⟨y, rest2⟩⟩ <;>
          simp [inputctlMain, h2, h3, h4, h5, h6, h8]
      by_cases h9 : cmd = "key"
      · rcases rest with _ | ⟨k, rest2⟩ <;>
          simp [inputctlMain, h2, h3, h4, h5, h6, h8, h9]
      · simp [inputctlMain, h2, h3, h4, h5, h6, h8, h9]
  · intro ho hr hc0 hnever hlen hs
    have hw : waitForCompletion env.doneSeqStale 5000 = 1 :=
      waitForCompletion_never env.doneSeqStale hnever 5000
    cases args with
    | nil => simp at hlen
    | cons cmd rest =>
      have hcmd : ¬ (cmd = "status") := by simpa using hs
      simp [inputctlMain, ho, hr, hc0, hw, hcmd]
  · intro ho hr hc0 hnever
    have hw : waitForCompletion env.doneSeqCmd 10000 = 1 :=
      waitForCompletion_never env.doneSeqCmd hnever 10000
    refine ⟨?_, ?_, ?_⟩ <;> simp [inputctlMain, ho, hr, hc0, hw]

/-- Witness for C9: a `click 400 300` whose done flag is never observed set
exits 3 with only the six pre-wait submission writes. -/
theorem C9_timeout_no_writes_witness :
    inputctlMain ["click", "400", "300"]
        ⟨true, 1, 0, fun _ => false, fun _ => false⟩
      = (3, clickWrites (atoi "400") (atoi "300")) :=
  ((C9_timeout_no_writes ["click", "400", "300"]
      ⟨true, 1, 0, fun _ => false, fun _ => false⟩
      (fun _ => false) (fun _ => false) "400" "300" []).2.2 rfl rfl rfl
      (fun _ => rfl)).1

/-! ## C10: out-of-range key codes -/

/-- C10 (confirmed): for a key-press command whose key code is outside
0..255, every invocation of the keyboard sampled-state override returns the
real sample and HRESULT unchanged and writes no channel field; iterating
any number of polls leaves the channel state identical, so the phase never
advances past its starting value and done is never set, and the controller
wait loop, observing the done flag after each poll, can only time out. -/
theorem C10_out_of_range_key (s : InputSharedState) (cb : Nat)
    (reals : Nat → (Nat → Nat)) (hrs : Nat → Int) (n : Nat)
    (_hc : s.cmdType = CMD_KEYPRESS) (hk : s.keyCode < 0 ∨ 256 ≤ s.keyCode) :
    kbHookStep s cb (reals 0) (hrs 0) = (s, reals 0, hrs 0) ∧
    kbRunState cb reals hrs s n = s ∧
    (s.done = 0 →
      (kbRunState cb reals hrs s n).done = 0 ∧
      (kbRunState cb reals hrs s n).phase = s.phase ∧
      waitForCompletion
        (fun i => decide ((kbRunState cb reals hrs s i).done = 1)) 10000 = 1) := by
  have step : ∀ (r : Nat → Nat) (h : Int), kbHookStep s cb r h = (s, r, h) := by
    intro r h
    by_cases g1 : s.cmdType ≠ CMD_KEYPRESS ∨ s.done ≠ 0
    · simp [kbHookStep, g1]
    · by_cases g2 : cb < 256
      · simp [kbHookStep, g1, g2]
      · simp [kbHookStep, g1, g2, hk]
  have hrun : ∀ m, kbRunState cb reals hrs s m = s := by
    intro m
    induction m with
    | zero => rfl
    | succ k ih => simp [kbRunState, ih, step]
  refine ⟨step (reals 0) (hrs 0), hrun n, fun hd => ⟨?_, ?_, ?_⟩⟩
  · rw [hrun]; exact hd
  · rw [hrun]
  · apply waitForCompletion_never
    intro i
    simp [hrun, hd]

/-- Witness for C10: key code 300 never completes; the 10 s wait times
out. -/
theorem C10_out_of_range_key_witness :
    waitForCompletion
      (fun i => decide ((kbRunState 256 (fun _ _ => 0) (fun _ => 0)
        (submitKey initShm 300) i).done = 1)) 10000 = 1 :=
  ((C10_out_of_range_key (submitKey initShm 300) 256 (fun _ _ => 0) (fun _ => 0)
      5 (by decide) (by decide)).2.2 (by decide)).2.2
